import Mathlib

set_option maxHeartbeats 1000000

/-!
Shallow embedding of `src/app.py`, a Flask service that rasterizes PDF pages
to PNG images.  Pure Python-library behaviour (`base64.b64encode` /
`base64.b64decode`) is implemented directly; external effects
(`requests.get`, `pdf2image.convert_from_bytes` followed by PIL's
`image.save(format='PNG')`, `werkzeug.secure_filename`, `uuid.uuid4`) are
abstracted into a `World` record, one field per capability.  Flask requests
are a record of the pieces the handlers read (`request.files['pdf']`,
`request.form`, `request.json`) and responses are an inductive mirroring
the `jsonify(...), status` / `send_file(...)` results.
-/

namespace PdfToImageApi

/-- Python `bytes` values: a list of byte values (each intended `< 256`). -/
abbrev Bytes := List Nat

/-! ### Base64 (model of Python `base64.b64encode` / `base64.b64decode`) -/

/-- The standard base64 alphabet, index `i` holding the character for value `i`. -/
def b64AlphabetChars : List Char :=
  "ABCDEFGHIJKLMNOPQRSTUVWXYZabcdefghijklmnopqrstuvwxyz0123456789+/".toList

/-- Character for a 6-bit value. -/
def b64Char (n : Nat) : Char := b64AlphabetChars.getD (n % 64) 'A'

/-- Helper for `b64Val`: index of a character in a list. -/
def b64ValAux : List Char → Nat → Char → Option Nat
  | [], _, _ => none
  | a :: as, i, c => if a = c then some i else b64ValAux as (i + 1) c

/-- 6-bit value of an alphabet character (`none` for non-alphabet characters). -/
def b64Val (c : Char) : Option Nat := b64ValAux b64AlphabetChars 0 c

/-- Base64-encode a byte list, three bytes to four characters, `=`-padded. -/
def b64encodeBytes : List Nat → List Char
  | [] => []
  | [a] => [b64Char (a / 4), b64Char (a % 4 * 16), '=', '=']
  | [a, b] => [b64Char (a / 4), b64Char (a % 4 * 16 + b / 16), b64Char (b % 16 * 4), '=']
  | a :: b :: c :: rest =>
    b64Char (a / 4) :: b64Char (a % 4 * 16 + b / 16) :: b64Char (b % 16 * 4 + c / 64) ::
      b64Char (c % 64) :: b64encodeBytes rest

/-- Model of `base64.b64encode(data).decode('utf-8')`. -/
def b64encode (data : Bytes) : String := String.mk (b64encodeBytes data)

/-- Decode a cleaned-up character stream four characters at a time.
An `Except.error` models the `binascii.Error` that `base64.b64decode` raises. -/
def b64decodeGroups : List Char → Except String Bytes
  | [] => .ok []
  | c1 :: c2 :: c3 :: c4 :: rest =>
    match b64Val c1, b64Val c2 with
    | some v1, some v2 =>
      if c3 = '=' then
        if c4 = '=' ∧ rest = [] then .ok [v1 * 4 + v2 / 16]
        else .error "Invalid base64-encoded string"
      else
        match b64Val c3 with
        | some v3 =>
          if c4 = '=' then
            if rest = [] then .ok [v1 * 4 + v2 / 16, v2 % 16 * 16 + v3 / 4]
            else .error "Invalid base64-encoded string"
          else
            match b64Val c4 with
            | some v4 =>
              match b64decodeGroups rest with
              | .ok tail =>
                .ok ((v1 * 4 + v2 / 16) :: (v2 % 16 * 16 + v3 / 4) :: (v3 % 4 * 64 + v4) :: tail)
              | .error e => .error e
            | none => .error "Invalid base64-encoded string"
        | none => .error "Invalid base64-encoded string"
    | _, _ => .error "Invalid base64-encoded string"
  | _ => .error "Incorrect padding"

/-- Model of `base64.b64decode` on a `str` argument (default `validate=False`:
characters outside the alphabet are discarded, then the remaining stream must
consist of well-padded four-character groups, else `binascii.Error`). -/
def b64decode (s : String) : Except String Bytes :=
  b64decodeGroups (s.toList.filter (fun c => b64AlphabetChars.contains c || c = '='))

/-! ### String helpers (models of Python `in`, `str.lower`, `str.endswith`) -/

/-- Bool-valued contiguous-sublist test: `containsSub l pat` models Python's
`pat in l` on strings, viewed on character lists. -/
def containsSub : List Char → List Char → Bool
  | _, [] => true
  | [], _ :: _ => false
  | a :: as, p :: ps => List.isPrefixOf (p :: ps) (a :: as) || containsSub as (p :: ps)

/-- Python `pat in s` for strings. -/
def strContains (s pat : String) : Bool := containsSub s.toList pat.toList

/-- Python `str.lower()` (ASCII behaviour, which covers every string the
handlers lower-case). -/
def pyLower (s : String) : String := String.mk (s.toList.map Char.toLower)

/-- Python `str.endswith(suf)`. -/
def pyEndsWith (s suf : String) : Bool := List.isSuffixOf suf.toList s.toList

/-! ### External capabilities -/

/-- A Python exception, as far as the handlers can observe one: either a
`ValueError` (caught separately in `/convert`) or any other exception. -/
inductive PyErr where
  | valueError (msg : String)
  | otherError (msg : String)
deriving DecidableEq

/-- Python `str(e)` for a modelled exception. -/
def PyErr.msg : PyErr → String
  | .valueError m => m
  | .otherError m => m

/-- The parts of a `requests.Response` the handlers read. -/
structure HttpFetchResponse where
  status_code : Nat
  content_type : String
  content : Bytes
deriving DecidableEq

/-- Outcome of `requests.get`: a response, a `requests.exceptions.Timeout`,
or another `requests.exceptions.RequestException` (each carrying `str(e)`). -/
inductive FetchOutcome where
  | ok (resp : HttpFetchResponse)
  | timeout (msg : String)
  | requestError (msg : String)
deriving DecidableEq

/-- Type of the renderer capability: `convert_from_bytes pdf dpi first_page
last_page`, returning the per-page PNG byte buffers that
`image.save(..., format='PNG')` would produce, or raising. -/
abbrev RenderFn := Bytes → Int → Int → Int → Except PyErr (List Bytes)

/-- The external world a request runs against. -/
structure World where
  fetch : String → FetchOutcome
  render : RenderFn
  secure_filename : String → String
  uuid_hex8 : String

/-- Replace the renderer capability; used to state that a code path never
invokes the renderer (its result is the same whatever the renderer does). -/
def World.withRender (w : World) (r : RenderFn) : World :=
  World.mk w.fetch r w.secure_filename w.uuid_hex8

/-! ### `pdf_page_to_image` (src/app.py lines 14-45) -/

/-- `pdf_page_to_image(pdf_data, page_number, dpi)`: renders one page and
returns `(img_base64, img_data)`.  The surrounding `try/except` rewrites any
exception whose `str(e).lower()` contains `"first page is after last page"`
into `ValueError("Page {page_number+1} does not exist in the PDF")` and
re-raises everything else unchanged. -/
def pdf_page_to_image (w : World) (pdf_data : Bytes) (page_number : Int) (dpi : Int) :
    Except PyErr (String × Bytes) :=
  let attempt : Except PyErr (String × Bytes) :=
    match w.render pdf_data dpi (page_number + 1) (page_number + 1) with
    | .error e => .error e
    | .ok [] =>
      .error (.valueError ("Could not convert page " ++ toString (page_number + 1)))
    | .ok (image :: _) => .ok (b64encode image, image)
  match attempt with
  | .ok r => .ok r
  | .error e =>
    if strContains (pyLower e.msg) "first page is after last page" then
      .error (.valueError ("Page " ++ toString (page_number + 1) ++
        " does not exist in the PDF"))
    else .error e

/-! ### Requests and responses -/

/-- `request.files['pdf']`. -/
structure UploadFile where
  filename : String
  content : Bytes

/-- The form fields the `/convert` handler reads.  Form values arrive as
strings and are passed through `int(...)`; the model carries them already
parsed, since no claim concerns non-numeric form values (those would raise
`ValueError` into the handler's 400 branch). -/
structure FormParams where
  page : Option Int
  dpi : Option Int
  format : Option String

/-- The JSON fields either handler reads. -/
structure JsonBody where
  page : Option Int
  dpi : Option Int
  format : Option String
  pdf_url : Option String
  pdf_base64 : Option String
  pages : Option (List Int)

/-- Replace the `dpi` field of a JSON body. -/
def JsonBody.setDpi (b : JsonBody) (d : Option Int) : JsonBody :=
  JsonBody.mk b.page d b.format b.pdf_url b.pdf_base64 b.pages

/-- A `/convert` request: `pdfFile` is `request.files['pdf']` when the files
dict is non-empty and holds that key; `json` is `request.json` when the body
is JSON. -/
structure ConvertRequest where
  pdfFile : Option UploadFile
  form : FormParams
  json : Option JsonBody

/-- A JSON-only request (no multipart part, no form fields). -/
def jsonRequest (j : JsonBody) : ConvertRequest :=
  ConvertRequest.mk none (FormParams.mk none none none) (some j)

/-- One entry of the batch `results` list: `{'page':…,'success':True,
'image_base64':…,'size_bytes':…}` or `{'page':…,'success':False,'error':…}`. -/
inductive BatchItem where
  | success (page : Int) (image_base64 : String) (size_bytes : Nat)
  | failure (page : Int) (error : String)
deriving DecidableEq

/-- The `page` field of a batch result entry. -/
def BatchItem.pageNum : BatchItem → Int
  | .success p _ _ => p
  | .failure p _ => p

/-- The HTTP responses the two handlers can produce. -/
inductive HttpResponse where
  | jsonError (error : String) (status : Nat)
  | pngBase64 (success : Bool) (image_base64 : String) (filename : String)
      (page : Int) (dpi : Int) (format : String) (size_bytes : Nat)
  | pngBinary (content : Bytes) (download_name : String)
  | batchOk (success : Bool) (results : List BatchItem) (total_pages : Nat)
deriving DecidableEq

/-- HTTP status code of a response (`jsonify` without an explicit status and
`send_file` both answer 200). -/
def HttpResponse.statusCode : HttpResponse → Nat
  | .jsonError _ s => s
  | _ => 200

/-- Erase the filename / download-name metadata of a success response,
leaving exactly the data that does not depend on the input method's
filename derivation. -/
def stripFilename : HttpResponse → HttpResponse
  | .pngBase64 s i _ p d f b => .pngBase64 s i "" p d f b
  | .pngBinary c _ => .pngBinary c ""
  | r => r

/-- `request.form.get(k, request.json.get(k, dflt) if request.json else dflt)`
for an int-valued option. -/
def formOrJsonInt (formVal : Option Int) (j : Option JsonBody)
    (sel : JsonBody → Option Int) (dflt : Int) : Int :=
  match formVal with
  | some v => v
  | none =>
    match j with
    | some body => (sel body).getD dflt
    | none => dflt

/-- Same for a string-valued option. -/
def formOrJsonStr (formVal : Option String) (j : Option JsonBody)
    (sel : JsonBody → Option String) (dflt : String) : String :=
  match formVal with
  | some v => v
  | none =>
    match j with
    | some body => (sel body).getD dflt
    | none => dflt

/-- `10 * 1024 * 1024`, the size ceiling of both handlers. -/
def MAX_PDF_BYTES : Nat := 10 * 1024 * 1024

/-! ### `/convert` (src/app.py lines 56-157) -/

/-- Lines 84-122: produce `(pdf_data, filename)` from one of the three input
methods, or an error response (`Except.error` is a `return jsonify(...)`). -/
def resolve_source (w : World) (req : ConvertRequest) :
    Except HttpResponse (Bytes × String) :=
  match req.pdfFile with
  | some file =>
    if !pyEndsWith (pyLower file.filename) ".pdf" then
      .error (.jsonError "File must be a PDF" 400)
    else
      .ok (file.content, w.secure_filename (file.filename.replace ".pdf" ""))
  | none =>
    match req.json with
    | some body =>
      match body.pdf_url with
      | some pdf_url =>
        match w.fetch pdf_url with
        | .timeout _ => .error (.jsonError "Timeout downloading PDF from URL" 408)
        | .requestError e =>
          .error (.jsonError ("Failed to download PDF: " ++ e) 400)
        | .ok resp =>
          if resp.status_code ≠ 200 then
            .error (.jsonError
              ("Failed to download PDF: HTTP " ++ toString resp.status_code) 400)
          else
            if !strContains (pyLower resp.content_type) "pdf" &&
                !pyEndsWith (pyLower pdf_url) ".pdf" then
              .error (.jsonError "URL does not point to a PDF file" 400)
            else
              .ok (resp.content, "url_pdf_" ++ w.uuid_hex8)
      | none =>
        match body.pdf_base64 with
        | some pdf_base64 =>
          match b64decode pdf_base64 with
          | .error _ => .error (.jsonError "Invalid base64 PDF data" 400)
          | .ok d => .ok (d, "base64_pdf_" ++ w.uuid_hex8)
        | none =>
          .error (.jsonError "No PDF provided. Use file upload, pdf_url, or pdf_base64" 400)
    | none =>
      .error (.jsonError "No PDF provided. Use file upload, pdf_url, or pdf_base64" 400)

/-- Lines 134-152: shape the success response according to `format`. -/
def format_response (img_base64 : String) (img_binary : Bytes) (filename : String)
    (page_num : Int) (dpi : Int) (response_format : String) : HttpResponse :=
  if response_format = "binary" then
    .pngBinary img_binary (filename ++ "_page_" ++ toString (page_num + 1) ++ ".png")
  else
    .pngBase64 true img_base64 (filename ++ "_page_" ++ toString (page_num + 1) ++ ".png")
      (page_num + 1) dpi "PNG" img_binary.length

/-- Lines 124-157: emptiness check, size ceiling, conversion, response
shaping, and the `except ValueError` (400) / `except Exception` (500)
handlers at the route boundary. -/
def convert_resolved (w : World) (pdf_data : Bytes) (filename : String)
    (page_num : Int) (dpi : Int) (response_format : String) : HttpResponse :=
  if pdf_data = [] then .jsonError "No PDF data received" 400
  else if MAX_PDF_BYTES < pdf_data.length then
    .jsonError "PDF file too large. Maximum size: 10MB" 400
  else
    match pdf_page_to_image w pdf_data page_num dpi with
    | .ok (img_base64, img_binary) =>
      format_response img_base64 img_binary filename page_num dpi response_format
    | .error (.valueError m) => .jsonError m 400
    | .error (.otherError m) => .jsonError ("Conversion failed: " ++ m) 500

/-- Source resolution followed by `convert_resolved`, with the scalar options
already extracted. -/
def convert_with_params (w : World) (req : ConvertRequest)
    (page_num : Int) (dpi : Int) (response_format : String) : HttpResponse :=
  match resolve_source w req with
  | .error resp => resp
  | .ok (pdf_data, filename) =>
    convert_resolved w pdf_data filename page_num dpi response_format

/-- The `/convert` handler (lines 56-157).  Option extraction mirrors lines
73-78: form value, else JSON value, else default; requested DPI is clamped
with `min(dpi, 400)`. -/
def convert_pdf (w : World) (req : ConvertRequest) : HttpResponse :=
  convert_with_params w req
    (formOrJsonInt req.form.page req.json (fun b => b.page) 1 - 1)
    (min (formOrJsonInt req.form.dpi req.json (fun b => b.dpi) 300) 400)
    (formOrJsonStr req.form.format req.json (fun b => b.format) "base64")

/-! ### `/convert-batch` (src/app.py lines 159-216) -/

/-- Lines 176-185: produce `pdf_data` for a batch request.  Unlike
`/convert`, the `requests.get` call and the `base64.b64decode` call sit in no
local `try/except`; a `Timeout`, `RequestException` or `binascii.Error`
propagates to the handler's outer `except Exception`, which answers
`500 'Batch conversion failed: ' + str(e)`. -/
def resolve_batch_source (w : World) (body : JsonBody) : Except HttpResponse Bytes :=
  match body.pdf_url with
  | some pdf_url =>
    match w.fetch pdf_url with
    | .timeout m => .error (.jsonError ("Batch conversion failed: " ++ m) 500)
    | .requestError m => .error (.jsonError ("Batch conversion failed: " ++ m) 500)
    | .ok resp =>
      if resp.status_code ≠ 200 then
        .error (.jsonError "Failed to download PDF" 400)
      else .ok resp.content
  | none =>
    match body.pdf_base64 with
    | some s =>
      match b64decode s with
      | .error m => .error (.jsonError ("Batch conversion failed: " ++ m) 500)
      | .ok d => .ok d
    | none => .error (.jsonError "pdf_url or pdf_base64 required" 400)

/-- Lines 193-207, the body of the per-page loop: a successful conversion
appends a success entry, any exception is caught and appends a failure entry
carrying `str(e)`. -/
def convert_batch_item (w : World) (pdf_data : Bytes) (dpi : Int)
    (page_num : Int) : BatchItem :=
  match pdf_page_to_image w pdf_data (page_num - 1) dpi with
  | .ok (img_base64, img_binary) => .success page_num img_base64 img_binary.length
  | .error e => .failure page_num e.msg

/-- Lines 171-213 with `pages` and the clamped `dpi` already read. -/
def convert_batch_pages (w : World) (body : JsonBody) (dpi : Int) : HttpResponse :=
  let pages := body.pages.getD [1]
  if 5 < pages.length then .jsonError "Maximum 5 pages allowed in batch mode" 400
  else
    match resolve_batch_source w body with
    | .error resp => resp
    | .ok pdf_data =>
      if MAX_PDF_BYTES < pdf_data.length then
        .jsonError "PDF file too large for batch processing" 400
      else
        .batchOk true (pages.map (convert_batch_item w pdf_data dpi)) pages.length

/-- The `/convert-batch` handler (lines 159-216). -/
def convert_pdf_batch (w : World) (j : Option JsonBody) : HttpResponse :=
  match j with
  | none => .jsonError "JSON payload required" 400
  | some body => convert_batch_pages w body (min (body.dpi.getD 300) 400)

/-! ### Concrete instances used by witnesses and counterexamples -/

/-- The eight-byte PNG signature. -/
def pngSignatureBytes : Bytes := [137, 80, 78, 71, 13, 10, 26, 10]

/-- A world whose renderer behaves like a two-page document: pages 1 and 2
render to the bytes `[1, 2, 3]`, any later page raises a page-range error
phrased the way the `pdf_page_to_image` rewrite expects; its fetch always
times out. -/
def W1 : World :=
  World.mk (fun _ => .timeout "t")
    (fun _ _ first _ =>
      if first ≤ 2 then .ok [[1, 2, 3]]
      else .error (.otherError "first page is after last page"))
    (fun s => s) "x"

/-- A world whose fetch returns a PDF-typed body of 10 MiB + 1 bytes. -/
def W5 : World :=
  World.mk
    (fun _ => .ok (HttpFetchResponse.mk 200 "application/pdf" (List.replicate 10485761 0)))
    (fun _ _ _ _ => .ok [[1]]) (fun s => s) "x"

/-- A world whose fetch returns the three bytes `[0, 0, 0]` as a PDF and
whose renderer always yields the bytes `[1, 2, 3]`. -/
def W8 : World :=
  World.mk (fun _ => .ok (HttpFetchResponse.mk 200 "application/pdf" [0, 0, 0]))
    (fun _ _ _ _ => .ok [[1, 2, 3]]) (fun s => s) "x"

/-- A world whose renderer yields exactly the PNG signature bytes. -/
def W9 : World :=
  World.mk (fun _ => .timeout "t") (fun _ _ _ _ => .ok [pngSignatureBytes])
    (fun s => s) "x"

/-! ### Lemmas about the base64 model -/

theorem b64Val_b64Char : ∀ n, n < 64 → b64Val (b64Char n) = some n := by decide

theorem b64Char_getD_pred :
    ∀ m, m < 64 → (b64AlphabetChars.contains (b64AlphabetChars.getD m 'A') ||
      b64AlphabetChars.getD m 'A' = '=') = true := by decide

theorem b64Char_pred (n : Nat) :
    (b64AlphabetChars.contains (b64Char n) || b64Char n = '=') = true :=
  b64Char_getD_pred (n % 64) (Nat.mod_lt _ (by norm_num))

theorem b64Char_getD_ne_pad : ∀ m, m < 64 → ¬ b64AlphabetChars.getD m 'A' = '=' := by decide

theorem b64Char_ne_pad (n : Nat) : ¬ b64Char n = '=' :=
  b64Char_getD_ne_pad (n % 64) (Nat.mod_lt _ (by norm_num))

theorem mem_b64encodeBytes : ∀ (data : Bytes) (c : Char), c ∈ b64encodeBytes data →
    (b64AlphabetChars.contains c || c = '=') = true
  | [], _, hc => by simp [b64encodeBytes] at hc
  | [a], c, hc => by
    simp only [b64encodeBytes, List.mem_cons, List.not_mem_nil, or_false] at hc
    rcases hc with h | h | h | h <;> subst h
    · exact b64Char_pred _
    · exact b64Char_pred _
    · decide
    · decide
  | [a, b], c, hc => by
    simp only [b64encodeBytes, List.mem_cons, List.not_mem_nil, or_false] at hc
    rcases hc with h | h | h | h <;> subst h
    · exact b64Char_pred _
    · exact b64Char_pred _
    · exact b64Char_pred _
    · decide
  | a :: b :: d :: rest, c, hc => by
    simp only [b64encodeBytes, List.mem_cons] at hc
    rcases hc with h | h | h | h | h
    · subst h; exact b64Char_pred _
    · subst h; exact b64Char_pred _
    · subst h; exact b64Char_pred _
    · subst h; exact b64Char_pred _
    · exact mem_b64encodeBytes rest c h

theorem filter_b64encodeBytes (data : Bytes) :
    (b64encodeBytes data).filter (fun c => b64AlphabetChars.contains c || c = '=') =
      b64encodeBytes data :=
  List.filter_eq_self.mpr (fun c hc => mem_b64encodeBytes data c hc)

theorem decode_pad2 (a : Nat) (ha : a < 256) :
    b64decodeGroups [b64Char (a / 4), b64Char (a % 4 * 16), '=', '='] = .ok [a] := by
  have h1 := b64Val_b64Char (a / 4) (by omega)
  have h2 := b64Val_b64Char (a % 4 * 16) (by omega)
  simp [b64decodeGroups, h1, h2]
  omega

theorem decode_pad1 (a b : Nat) (ha : a < 256) (hb : b < 256) :
    b64decodeGroups [b64Char (a / 4), b64Char (a % 4 * 16 + b / 16),
      b64Char (b % 16 * 4), '='] = .ok [a, b] := by
  have h1 := b64Val_b64Char (a / 4) (by omega)
  have h2 := b64Val_b64Char (a % 4 * 16 + b / 16) (by omega)
  have h3 := b64Val_b64Char (b % 16 * 4) (by omega)
  have hne := b64Char_ne_pad (b % 16 * 4)
  simp [b64decodeGroups, h1, h2, h3, hne]
  omega

theorem decode_full_chunk (a b c : Nat) (rest : List Char)
    (ha : a < 256) (hb : b < 256) (hc : c < 256) :
    b64decodeGroups (b64Char (a / 4) :: b64Char (a % 4 * 16 + b / 16) ::
      b64Char (b % 16 * 4 + c / 64) :: b64Char (c % 64) :: rest) =
    match b64decodeGroups rest with
    | .ok tail => .ok (a :: b :: c :: tail)
    | .error e => .error e := by
  have h1 := b64Val_b64Char (a / 4) (by omega)
  have h2 := b64Val_b64Char (a % 4 * 16 + b / 16) (by omega)
  have h3 := b64Val_b64Char (b % 16 * 4 + c / 64) (by omega)
  have h4 := b64Val_b64Char (c % 64) (by omega)
  have hne3 := b64Char_ne_pad (b % 16 * 4 + c / 64)
  have hne4 := b64Char_ne_pad (c % 64)
  cases hrest : b64decodeGroups rest with
  | ok tail =>
    simp [b64decodeGroups, h1, h2, h3, h4, hne3, hne4, hrest]
    omega
  | error e =>
    simp [b64decodeGroups, h1, h2, h3, h4, hne3, hne4, hrest]

theorem b64decodeGroups_encodeBytes : ∀ (data : Bytes), (∀ x ∈ data, x < 256) →
    b64decodeGroups (b64encodeBytes data) = .ok data
  | [], _ => rfl
  | [a], h => by
    rw [show b64encodeBytes [a] = [b64Char (a / 4), b64Char (a % 4 * 16), '=', '='] from rfl]
    exact decode_pad2 a (h a (by simp))
  | [a, b], h => by
    rw [show b64encodeBytes [a, b] = [b64Char (a / 4), b64Char (a % 4 * 16 + b / 16),
      b64Char (b % 16 * 4), '='] from rfl]
    exact decode_pad1 a b (h a (by simp)) (h b (by simp))
  | a :: b :: c :: rest, h => by
    rw [show b64encodeBytes (a :: b :: c :: rest) = b64Char (a / 4) ::
      b64Char (a % 4 * 16 + b / 16) :: b64Char (b % 16 * 4 + c / 64) ::
      b64Char (c % 64) :: b64encodeBytes rest from rfl]
    rw [decode_full_chunk a b c _ (h a (by simp)) (h b (by simp)) (h c (by simp))]
    rw [b64decodeGroups_encodeBytes rest (fun x hx => h x (by simp [hx]))]

/-- Decoding inverts encoding on genuine byte values: the round-trip behind
the `image_base64` / `size_bytes` contract. -/
theorem b64decode_b64encode (data : Bytes) (h : ∀ x ∈ data, x < 256) :
    b64decode (b64encode data) = .ok data := by
  unfold b64decode b64encode
  rw [show (String.mk (b64encodeBytes data)).toList = b64encodeBytes data from rfl]
  rw [filter_b64encodeBytes]
  exact b64decodeGroups_encodeBytes data h

/-! ### Lemmas about the string helpers -/

theorem isPrefixOf_append_self (l t : List Char) : List.isPrefixOf l (l ++ t) = true := by
  induction l with
  | nil => cases t with
    | nil => rfl
    | cons b bs => rfl
  | cons a as ih => simp [List.isPrefixOf, ih]

theorem containsSub_append (x pat y : List Char) :
    containsSub (x ++ (pat ++ y)) pat = true := by
  cases pat with
  | nil => cases x ++ ([] ++ y) with
    | nil => rfl
    | cons a as => rfl
  | cons p ps =>
    induction x with
    | nil =>
      show containsSub ((p :: ps) ++ y) (p :: ps) = true
      rw [List.cons_append]
      show (List.isPrefixOf (p :: ps) (p :: (ps ++ y)) || containsSub (ps ++ y) (p :: ps)) = true
      rw [show p :: (ps ++ y) = (p :: ps) ++ y from rfl, isPrefixOf_append_self]
      rfl
    | cons a as ih =>
      show (List.isPrefixOf (p :: ps) (a :: (as ++ ((p :: ps) ++ y))) ||
        containsSub (as ++ ((p :: ps) ++ y)) (p :: ps)) = true
      rw [ih]
      simp

theorem stringAppend_assoc (a b c : String) : (a ++ b) ++ c = a ++ (b ++ c) := by
  cases a with | mk da =>
  cases b with | mk db =>
  cases c with | mk dc =>
  exact congrArg String.mk (List.append_assoc da db dc)

/-- A string built around `pat` contains `pat` in the sense of Python `in`. -/
theorem strContains_middle (a pat b : String) :
    strContains (a ++ (pat ++ b)) pat = true := by
  unfold strContains
  have h : (a ++ (pat ++ b)).toList = a.toList ++ (pat.toList ++ b.toList) := by
    cases a with | mk da =>
    cases pat with | mk dp =>
    cases b with | mk db =>
    rfl
  rw [h]
  exact containsSub_append a.toList pat.toList b.toList

/-! ### Invariance helpers -/

/-- Source resolution never consults the renderer. -/
theorem resolve_source_withRender (w : World) (r : RenderFn) (req : ConvertRequest) :
    resolve_source (w.withRender r) req = resolve_source w req := rfl

/-- Batch source resolution never consults the renderer. -/
theorem resolve_batch_source_withRender (w : World) (r : RenderFn) (body : JsonBody) :
    resolve_batch_source (w.withRender r) body = resolve_batch_source w body := rfl

/-- The `dpi` field of the JSON body is read only during option extraction. -/
theorem convert_with_params_setDpi (w : World) (jb : JsonBody) (x : Option Int)
    (pn dpi : Int) (fmt : String) :
    convert_with_params w (jsonRequest (jb.setDpi x)) pn dpi fmt =
      convert_with_params w (jsonRequest jb) pn dpi fmt := by
  cases jb with | mk p dd f u b pg => rfl

/-- Same fact for the batch pipeline after option extraction. -/
theorem convert_batch_pages_setDpi (w : World) (jb : JsonBody) (x : Option Int) (dpi : Int) :
    convert_batch_pages w (jb.setDpi x) dpi = convert_batch_pages w jb dpi := by
  cases jb with | mk p dd f u b pg => rfl

/-- After the options are fixed, the response modulo filename metadata does
not depend on the filename derived by the resolver. -/
theorem strip_convert_resolved (w : World) (data : Bytes) (fn fn' : String)
    (pn dpi : Int) (fmt : String) :
    stripFilename (convert_resolved w data fn pn dpi fmt) =
      stripFilename (convert_resolved w data fn' pn dpi fmt) := by
  unfold convert_resolved
  split
  · rfl
  · split
    · rfl
    · split
      · unfold format_response
        split
        · rfl
        · rfl
      · rfl
      · rfl

/-! ### Claim C1 -/

/-- C1: on a batch request whose page list passes the batch limit and whose
source resolves within the size ceiling, `/convert-batch` maps the per-page
conversion (success entry, or failure entry carrying the page number and
`str(e)`) over the caller's page list exactly as given — one result per
requested page, duplicates kept, request order preserved — inside an
envelope with `success = true` and `total_pages` the length of the request
list. -/
theorem batch_iterates_in_order (w : World) (jb : JsonBody) (ps : List Int) (data : Bytes)
    (hp : jb.pages = some ps) (h5 : ps.length ≤ 5)
    (hres : resolve_batch_source w jb = .ok data)
    (hlen : data.length ≤ MAX_PDF_BYTES) :
    convert_pdf_batch w (some jb) =
      .batchOk true (ps.map (convert_batch_item w data (min (jb.dpi.getD 300) 400)))
        ps.length
    ∧ (ps.map (convert_batch_item w data (min (jb.dpi.getD 300) 400))).map
        BatchItem.pageNum = ps := by
  constructor
  · show convert_batch_pages w jb (min (jb.dpi.getD 300) 400) = _
    unfold convert_batch_pages
    rw [hp]
    simp only [Option.getD_some]
    rw [if_neg (by omega), hres]
    show (if MAX_PDF_BYTES < data.length then _ else _) = _
    rw [if_neg (by omega)]
  · have hpt : ∀ p : Int,
        (convert_batch_item w data (min (jb.dpi.getD 300) 400) p).pageNum = p := by
      intro p
      unfold convert_batch_item
      split
      · rfl
      · rfl
    have hmap : ∀ l : List Int,
        (l.map (convert_batch_item w data (min (jb.dpi.getD 300) 400))).map
          BatchItem.pageNum = l := by
      intro l
      induction l with
      | nil => rfl
      | cons a t ih => rw [List.map_cons, List.map_cons, hpt a, ih]
    exact hmap ps

/-- Witness for C1 at the spec's own example: pages `[1, 2, 999]` against a
two-page document give two ordered successes and one failure for page 999,
with `total_pages = 3` and the outer `success` still `true`. -/
theorem batch_iterates_in_order_witness :
    (JsonBody.mk none none none none (some "AAAA") (some [1, 2, 999])).pages =
        some [1, 2, 999]
    ∧ ([1, 2, 999] : List Int).length ≤ 5
    ∧ convert_pdf_batch W1
        (some (JsonBody.mk none none none none (some "AAAA") (some [1, 2, 999]))) =
      .batchOk true
        [.success 1 "AQID" 3, .success 2 "AQID" 3,
         .failure 999 "Page 999 does not exist in the PDF"] 3 := by
  refine ⟨rfl, by decide, ?_⟩
  have h := (batch_iterates_in_order W1
    (JsonBody.mk none none none none (some "AAAA") (some [1, 2, 999]))
    [1, 2, 999] [0, 0, 0] rfl (by decide) rfl (by decide)).1
  exact h.trans (by decide)

/-! ### Claim C2 -/

/-- C2: on either endpoint the requested DPI reaches the conversion stage as
`min dpi 400` — values above 400 are silently lowered to 400 (the request
behaves exactly like the same request with DPI 400, so the clamp never
rejects), values at or below 400 pass through unchanged. -/
theorem dpi_clamped_to_400 (w : World) (jb : JsonBody) (d : Int)
    (pf : Option UploadFile) (fp : Option Int) (ff : Option String)
    (j : Option JsonBody) :
    convert_pdf w (jsonRequest (jb.setDpi (some d))) =
      convert_with_params w (jsonRequest (jb.setDpi (some d)))
        (jb.page.getD 1 - 1) (min d 400) (jb.format.getD "base64")
    ∧ convert_pdf_batch w (some (jb.setDpi (some d))) =
      convert_batch_pages w (jb.setDpi (some d)) (min d 400)
    ∧ convert_pdf w (ConvertRequest.mk pf (FormParams.mk fp (some d) ff) j) =
      convert_with_params w (ConvertRequest.mk pf (FormParams.mk fp (some d) ff) j)
        (formOrJsonInt fp j (fun b => b.page) 1 - 1) (min d 400)
        (formOrJsonStr ff j (fun b => b.format) "base64")
    ∧ convert_pdf w (jsonRequest (jb.setDpi (some d))) =
      convert_pdf w (jsonRequest (jb.setDpi (some (min d 400))))
    ∧ convert_pdf_batch w (some (jb.setDpi (some d))) =
      convert_pdf_batch w (some (jb.setDpi (some (min d 400))))
    ∧ min d 400 = if d ≤ 400 then d else 400 := by
  refine ⟨rfl, rfl, rfl, ?_, ?_, min_def d 400⟩
  · show convert_with_params w (jsonRequest (jb.setDpi (some d)))
        (jb.page.getD 1 - 1) (min d 400) (jb.format.getD "base64") =
      convert_with_params w (jsonRequest (jb.setDpi (some (min d 400))))
        (jb.page.getD 1 - 1) (min (min d 400) 400) (jb.format.getD "base64")
    rw [min_assoc, min_self, convert_with_params_setDpi, convert_with_params_setDpi]
  · show convert_batch_pages w (jb.setDpi (some d)) (min d 400) =
      convert_batch_pages w (jb.setDpi (some (min d 400))) (min (min d 400) 400)
    rw [min_assoc, min_self, convert_batch_pages_setDpi, convert_batch_pages_setDpi]

/-! ### Claim C6 -/

/-- C6: a batch request with more than five page numbers is rejected with
HTTP 400 before anything else happens; the response is the same whatever the
renderer would do, so no rendering work is performed. -/
theorem batch_page_limit_rejected (w : World) (r : RenderFn) (jb : JsonBody)
    (ps : List Int) (hp : jb.pages = some ps) (h5 : 5 < ps.length) :
    convert_pdf_batch (w.withRender r) (some jb) =
      .jsonError "Maximum 5 pages allowed in batch mode" 400 := by
  show convert_batch_pages (w.withRender r) jb _ = _
  unfold convert_batch_pages
  rw [hp]
  simp only [Option.getD_some]
  rw [if_pos h5]

/-- Witness for C6: six requested pages are rejected with the 400 error. -/
theorem batch_page_limit_rejected_witness :
    (5 : Nat) < ([1, 1, 1, 1, 1, 1] : List Int).length
    ∧ convert_pdf_batch W1
        (some (JsonBody.mk none none none none (some "AAAA") (some [1, 1, 1, 1, 1, 1]))) =
      .jsonError "Maximum 5 pages allowed in batch mode" 400 :=
  ⟨by decide, batch_page_limit_rejected W1 W1.render
    (JsonBody.mk none none none none (some "AAAA") (some [1, 1, 1, 1, 1, 1]))
    [1, 1, 1, 1, 1, 1] rfl (by decide)⟩

/-! ### Claim C10 -/

/-- C10: a batch request with an empty pages list, once its source resolves
within the size ceiling, answers 200 with `success = true`, an empty
`results` list and `total_pages = 0`; the renderer is never consulted. -/
theorem empty_batch_returns_empty_results (w : World) (r : RenderFn) (jb : JsonBody)
    (data : Bytes) (hp : jb.pages = some [])
    (hres : resolve_batch_source w jb = .ok data)
    (hlen : data.length ≤ MAX_PDF_BYTES) :
    convert_pdf_batch (w.withRender r) (some jb) = .batchOk true [] 0
    ∧ (convert_pdf_batch (w.withRender r) (some jb)).statusCode = 200 := by
  have h : convert_pdf_batch (w.withRender r) (some jb) = .batchOk true [] 0 := by
    show convert_batch_pages (w.withRender r) jb _ = _
    unfold convert_batch_pages
    rw [hp]
    simp only [Option.getD_some]
    rw [if_neg (by simp), (resolve_batch_source_withRender w r jb).trans hres]
    show (if MAX_PDF_BYTES < data.length then _ else _) = _
    rw [if_neg (by omega)]
    rfl
  exact ⟨h, by rw [h]; rfl⟩

/-- Witness for C10. -/
theorem empty_batch_returns_empty_results_witness :
    (JsonBody.mk none none none none (some "AAAA") (some [])).pages = some []
    ∧ convert_pdf_batch W1 (some (JsonBody.mk none none none none (some "AAAA") (some []))) =
      .batchOk true [] 0 :=
  ⟨rfl, (empty_batch_returns_empty_results W1 W1.render
    (JsonBody.mk none none none none (some "AAAA") (some [])) [0, 0, 0]
    rfl rfl (by decide)).1⟩

/-! ### Claim C4 -/

/-- C4 counterexample: a download timeout on `/convert-batch` is answered
with HTTP 500 (`'Batch conversion failed: ' + str(e)`), not 408 — the batch
handler's `requests.get` sits in no local `try/except`, so the `Timeout`
exception falls through to the outer `except Exception`. -/
theorem batch_timeout_returns_500 :
    convert_pdf_batch W1
      (some (JsonBody.mk none none none (some "http://e/a.pdf") none (some [1]))) =
      .jsonError "Batch conversion failed: t" 500
    ∧ (convert_pdf_batch W1
        (some (JsonBody.mk none none none (some "http://e/a.pdf") none (some [1])))).statusCode
      ≠ 408 :=
  ⟨by decide, by decide⟩

/-- C4 (amended): a URL-sourced `/convert` request whose fetch times out is
answered 408; the same timeout on `/convert-batch` is answered 500 with
`'Batch conversion failed: ' + str(e)`. -/
theorem timeout_handling_per_endpoint (w : World) (jb : JsonBody) (url m : String)
    (hurl : jb.pdf_url = some url) (hto : w.fetch url = .timeout m)
    (hpages : (jb.pages.getD [1]).length ≤ 5) :
    convert_pdf w (jsonRequest jb) = .jsonError "Timeout downloading PDF from URL" 408
    ∧ convert_pdf_batch w (some jb) =
      .jsonError ("Batch conversion failed: " ++ m) 500 := by
  constructor
  · show convert_with_params w (jsonRequest jb) _ _ _ = _
    unfold convert_with_params resolve_source
    simp [jsonRequest, hurl, hto]
  · show convert_batch_pages w jb _ = _
    unfold convert_batch_pages resolve_batch_source
    simp [hurl, hto, Nat.not_lt.mpr hpages]

/-- Witness for the amended C4. -/
theorem timeout_handling_per_endpoint_witness :
    W1.fetch "http://e/a.pdf" = .timeout "t"
    ∧ convert_pdf W1
        (jsonRequest (JsonBody.mk none none none (some "http://e/a.pdf") none (some [1]))) =
      .jsonError "Timeout downloading PDF from URL" 408 :=
  ⟨rfl, (timeout_handling_per_endpoint W1
    (JsonBody.mk none none none (some "http://e/a.pdf") none (some [1]))
    "http://e/a.pdf" "t" rfl rfl (by decide)).1⟩

/-! ### Claim C5 -/

/-- C5: on either endpoint, once the resolved PDF byte buffer exceeds
10 MiB the request is answered 400 with the endpoint's too-large message;
the response is the same whatever the renderer would do, so no PDF decode or
render is attempted. -/
theorem oversized_pdf_rejected_without_render (w : World) (r : RenderFn)
    (req : ConvertRequest) (jb : JsonBody) (data data2 : Bytes) (fn : String)
    (h1 : resolve_source w req = .ok (data, fn))
    (hlen1 : MAX_PDF_BYTES < data.length)
    (h2 : resolve_batch_source w jb = .ok data2)
    (hlen2 : MAX_PDF_BYTES < data2.length)
    (hpages : (jb.pages.getD [1]).length ≤ 5) :
    convert_pdf (w.withRender r) req =
      .jsonError "PDF file too large. Maximum size: 10MB" 400
    ∧ convert_pdf_batch (w.withRender r) (some jb) =
      .jsonError "PDF file too large for batch processing" 400 := by
  constructor
  · show convert_with_params (w.withRender r) req _ _ _ = _
    unfold convert_with_params
    rw [(resolve_source_withRender w r req).trans h1]
    show convert_resolved (w.withRender r) data fn _ _ _ = _
    unfold convert_resolved
    rw [if_neg (by intro hh; subst hh; simp only [List.length_nil] at hlen1; omega)]
    rw [if_pos hlen1]
  · show convert_batch_pages (w.withRender r) jb _ = _
    unfold convert_batch_pages
    rw [if_neg (Nat.not_lt.mpr hpages), (resolve_batch_source_withRender w r jb).trans h2]
    show (if MAX_PDF_BYTES < data2.length then _ else _) = _
    rw [if_pos hlen2]

/-- Witness for C5: a fetched body of 10 MiB + 1 bytes is rejected on both
endpoints. -/
theorem oversized_pdf_rejected_without_render_witness :
    MAX_PDF_BYTES < (List.replicate 10485761 0 : Bytes).length
    ∧ convert_pdf W5
        (jsonRequest (JsonBody.mk none none none (some "http://e/a.pdf") none (some [1]))) =
      .jsonError "PDF file too large. Maximum size: 10MB" 400
    ∧ convert_pdf_batch W5
        (some (JsonBody.mk none none none (some "http://e/a.pdf") none (some [1]))) =
      .jsonError "PDF file too large for batch processing" 400 := by
  have hlen : MAX_PDF_BYTES < (List.replicate 10485761 0 : Bytes).length := by
    rw [List.length_replicate]
    norm_num [MAX_PDF_BYTES]
  have h := oversized_pdf_rejected_without_render W5 W5.render
    (jsonRequest (JsonBody.mk none none none (some "http://e/a.pdf") none (some [1])))
    (JsonBody.mk none none none (some "http://e/a.pdf") none (some [1]))
    (List.replicate 10485761 0) (List.replicate 10485761 0) "url_pdf_x"
    rfl hlen rfl hlen (by decide)
  exact ⟨hlen, h.1, h.2⟩

/-! ### Claim C7 -/

/-- C7 counterexample: a malformed `pdf_base64` on `/convert-batch` is
answered with HTTP 500 (`'Batch conversion failed: ' + str(e)`), not 400 —
the batch handler's `base64.b64decode` call sits in no local `try/except`. -/
theorem batch_bad_base64_returns_500 :
    convert_pdf_batch W1 (some (JsonBody.mk none none none none (some "AB") (some [1]))) =
      .jsonError "Batch conversion failed: Incorrect padding" 500
    ∧ (convert_pdf_batch W1
        (some (JsonBody.mk none none none none (some "AB") (some [1])))).statusCode ≠ 400 :=
  ⟨by decide, by decide⟩

/-- C7 (amended): malformed base64 in `pdf_base64` yields
`400 'Invalid base64 PDF data'` on `/convert`, but on `/convert-batch` the
decode error escapes to the outer handler and yields
`500 'Batch conversion failed: ' + str(e)`. -/
theorem bad_base64_handling_per_endpoint (w : World) (jb : JsonBody) (s m : String)
    (hurl : jb.pdf_url = none) (hb : jb.pdf_base64 = some s)
    (hdec : b64decode s = .error m)
    (hpages : (jb.pages.getD [1]).length ≤ 5) :
    convert_pdf w (jsonRequest jb) = .jsonError "Invalid base64 PDF data" 400
    ∧ convert_pdf_batch w (some jb) =
      .jsonError ("Batch conversion failed: " ++ m) 500 := by
  constructor
  · show convert_with_params w (jsonRequest jb) _ _ _ = _
    unfold convert_with_params resolve_source
    simp [jsonRequest, hurl, hb, hdec]
  · show convert_batch_pages w jb _ = _
    unfold convert_batch_pages resolve_batch_source
    simp [hurl, hb, hdec, Nat.not_lt.mpr hpages]

/-- Witness for the amended C7: the two-character payload `"AB"` fails to
decode and each endpoint answers as stated. -/
theorem bad_base64_handling_per_endpoint_witness :
    b64decode "AB" = .error "Incorrect padding"
    ∧ convert_pdf W1 (jsonRequest (JsonBody.mk none none none none (some "AB") (some [1]))) =
      .jsonError "Invalid base64 PDF data" 400 :=
  ⟨rfl, (bad_base64_handling_per_endpoint W1
    (JsonBody.mk none none none none (some "AB") (some [1])) "AB" "Incorrect padding"
    rfl rfl rfl (by decide)).1⟩

/-! ### Claim C3 -/

/-- When the renderer raises and `str(e).lower()` contains the phrase the
wrapper looks for, `pdf_page_to_image` rewrites the error into its own
page-range `ValueError`. -/
theorem pdf_page_to_image_pagerange (w : World) (data : Bytes) (pn dpi : Int) (e : PyErr)
    (hrender : w.render data dpi (pn + 1) (pn + 1) = .error e)
    (hphrase : strContains (pyLower e.msg) "first page is after last page" = true) :
    pdf_page_to_image w data pn dpi =
      .error (.valueError ("Page " ++ toString (pn + 1) ++ " does not exist in the PDF")) := by
  unfold pdf_page_to_image
  rw [hrender]
  show (if strContains (pyLower e.msg) "first page is after last page" = true
    then _ else _) = _
  rw [if_pos hphrase]

/-- C3 counterexample: requesting page 999 of a two-page document whose
renderer reports the page-range phrase yields the message
`"Page 999 does not exist in the PDF"` — it names the requested page but
does not contain the document's actual page count (`"2"`). -/
theorem page_range_message_lacks_page_count :
    convert_pdf W1 (jsonRequest (JsonBody.mk (some 999) none none none (some "AAAA") none)) =
      .jsonError "Page 999 does not exist in the PDF" 400
    ∧ strContains "Page 999 does not exist in the PDF" "2" = false :=
  ⟨by decide, by decide⟩

/-- C3 (amended): when the renderer fails with a message containing
`"first page is after last page"`, `/convert` answers 400 with
`"Page N does not exist in the PDF"`; that message references the requested
1-indexed page number, and (per the counterexample) not the document's
actual page count. -/
theorem page_range_error_names_requested_page (w : World) (jb : JsonBody) (p d : Int)
    (data : Bytes) (fn : String) (e : PyErr)
    (hp : jb.page = some p) (hd : jb.dpi = some d)
    (hres : resolve_source w (jsonRequest jb) = .ok (data, fn))
    (hne : data ≠ []) (hlen : data.length ≤ MAX_PDF_BYTES)
    (hrender : w.render data (min d 400) p p = .error e)
    (hphrase : strContains (pyLower e.msg) "first page is after last page" = true) :
    convert_pdf w (jsonRequest jb) =
      .jsonError ("Page " ++ toString p ++ " does not exist in the PDF") 400
    ∧ strContains ("Page " ++ toString p ++ " does not exist in the PDF")
        (toString p) = true := by
  have hp1 : p - 1 + 1 = p := by omega
  constructor
  · show convert_with_params w (jsonRequest jb) (jb.page.getD 1 - 1)
      (min (jb.dpi.getD 300) 400) (jb.format.getD "base64") = _
    rw [hp, hd]
    simp only [Option.getD_some]
    unfold convert_with_params
    rw [hres]
    show convert_resolved w data fn (p - 1) (min d 400) (jb.format.getD "base64") = _
    unfold convert_resolved
    rw [if_neg hne, if_neg (by omega)]
    have hpti := pdf_page_to_image_pagerange w data (p - 1) (min d 400) e
      (by rw [hp1]; exact hrender) hphrase
    rw [hp1] at hpti
    rw [hpti]
  · rw [stringAppend_assoc]
    exact strContains_middle "Page " (toString p) " does not exist in the PDF"

/-- Witness for the amended C3 at page 999 of `W1`'s two-page document. -/
theorem page_range_error_names_requested_page_witness :
    W1.render [0, 0, 0] (min 300 400) 999 999 =
      .error (.otherError "first page is after last page")
    ∧ convert_pdf W1
        (jsonRequest (JsonBody.mk (some 999) (some 300) none none (some "AAAA") none)) =
      .jsonError "Page 999 does not exist in the PDF" 400
    ∧ strContains "Page 999 does not exist in the PDF" "999" = true := by
  have h := page_range_error_names_requested_page W1
    (JsonBody.mk (some 999) (some 300) none none (some "AAAA") none) 999 300
    [0, 0, 0] "base64_pdf_x" (.otherError "first page is after last page")
    rfl rfl rfl (by decide) (by decide) rfl (by decide)
  exact ⟨rfl, h.1.trans (by decide), h.2.trans (by decide)⟩

/-! ### Claim C8 -/

/-- C8: for the three input methods resolving to the same PDF bytes with the
same page, DPI and response format, the responses agree on everything except
the derived filename — in particular the image bytes and `image_base64` are
identical; the conversion depends only on the resolved bytes, page and DPI. -/
theorem source_method_independence (w : World) (p d : Int) (f fname url s64 : String)
    (dataU data : Bytes) (fn1 fn2 fn3 : String)
    (h1 : resolve_source w (ConvertRequest.mk (some (UploadFile.mk fname dataU))
        (FormParams.mk (some p) (some d) (some f)) none) = .ok (data, fn1))
    (h2 : resolve_source w (jsonRequest
        (JsonBody.mk (some p) (some d) (some f) (some url) none none)) = .ok (data, fn2))
    (h3 : resolve_source w (jsonRequest
        (JsonBody.mk (some p) (some d) (some f) none (some s64) none)) = .ok (data, fn3)) :
    stripFilename (convert_pdf w (ConvertRequest.mk (some (UploadFile.mk fname dataU))
        (FormParams.mk (some p) (some d) (some f)) none)) =
      stripFilename (convert_pdf w (jsonRequest
        (JsonBody.mk (some p) (some d) (some f) (some url) none none)))
    ∧ stripFilename (convert_pdf w (jsonRequest
        (JsonBody.mk (some p) (some d) (some f) (some url) none none))) =
      stripFilename (convert_pdf w (jsonRequest
        (JsonBody.mk (some p) (some d) (some f) none (some s64) none))) := by
  have key : ∀ (req : ConvertRequest) (fn : String),
      resolve_source w req = .ok (data, fn) →
      stripFilename (convert_with_params w req (p - 1) (min d 400) f) =
        stripFilename (convert_resolved w data "" (p - 1) (min d 400) f) := by
    intro req fn h
    unfold convert_with_params
    rw [h]
    exact strip_convert_resolved w data fn "" (p - 1) (min d 400) f
  exact ⟨(key _ fn1 h1).trans (key _ fn2 h2).symm,
    (key _ fn2 h2).trans (key _ fn3 h3).symm⟩

/-- Witness for C8: an upload of `doc.pdf`, a URL fetch and a base64 payload
all resolving to the bytes `[0, 0, 0]` give the same response up to
filename. -/
theorem source_method_independence_witness :
    resolve_source W8 (jsonRequest
        (JsonBody.mk (some 1) (some 300) (some "base64") none (some "AAAA") none)) =
      .ok ([0, 0, 0], "base64_pdf_x")
    ∧ stripFilename (convert_pdf W8 (ConvertRequest.mk
        (some (UploadFile.mk "doc.pdf" [0, 0, 0]))
        (FormParams.mk (some 1) (some 300) (some "base64")) none)) =
      stripFilename (convert_pdf W8 (jsonRequest
        (JsonBody.mk (some 1) (some 300) (some "base64") (some "http://e/a.pdf") none none)))
    ∧ stripFilename (convert_pdf W8 (jsonRequest
        (JsonBody.mk (some 1) (some 300) (some "base64") (some "http://e/a.pdf") none none))) =
      stripFilename (convert_pdf W8 (jsonRequest
        (JsonBody.mk (some 1) (some 300) (some "base64") none (some "AAAA") none))) := by
  have h := source_method_independence W8 1 300 "base64" "doc.pdf" "http://e/a.pdf" "AAAA"
    [0, 0, 0] [0, 0, 0] (String.replace "doc.pdf" ".pdf" "") "url_pdf_x" "base64_pdf_x"
    rfl rfl rfl
  exact ⟨rfl, h.1, h.2⟩

/-! ### Claim C9 -/

/-- When the renderer yields at least one image, `pdf_page_to_image` returns
its PNG bytes together with their base64 encoding. -/
theorem pdf_page_to_image_ok (w : World) (data : Bytes) (pn dpi : Int)
    (img : Bytes) (imgs : List Bytes)
    (hrender : w.render data dpi (pn + 1) (pn + 1) = .ok (img :: imgs)) :
    pdf_page_to_image w data pn dpi = .ok (b64encode img, img) := by
  unfold pdf_page_to_image
  rw [hrender]

/-- C9: a successful base64-format `/convert` response carries
`image_base64 = b64encode img` and `size_bytes = img.length` for the
rendered PNG bytes `img`; decoding `image_base64` returns exactly those
`size_bytes` bytes, and (given that the renderer produces PNG output, as PIL
does) they begin with the PNG signature. -/
theorem base64_response_roundtrip (w : World) (jb : JsonBody) (p d : Int)
    (data img : Bytes) (imgs : List Bytes) (fn : String)
    (hp : jb.page = some p) (hd : jb.dpi = some d) (hf : jb.format = none)
    (hres : resolve_source w (jsonRequest jb) = .ok (data, fn))
    (hne : data ≠ []) (hlen : data.length ≤ MAX_PDF_BYTES)
    (hrender : w.render data (min d 400) p p = .ok (img :: imgs))
    (hbytes : ∀ x ∈ img, x < 256)
    (hsig : img.take 8 = pngSignatureBytes) :
    convert_pdf w (jsonRequest jb) =
      .pngBase64 true (b64encode img) (fn ++ "_page_" ++ toString p ++ ".png") p
        (min d 400) "PNG" img.length
    ∧ b64decode (b64encode img) = .ok img
    ∧ img.take 8 = pngSignatureBytes := by
  have hp1 : p - 1 + 1 = p := by omega
  refine ⟨?_, b64decode_b64encode img hbytes, hsig⟩
  show convert_with_params w (jsonRequest jb) (jb.page.getD 1 - 1)
    (min (jb.dpi.getD 300) 400) (jb.format.getD "base64") = _
  rw [hp, hd, hf]
  simp only [Option.getD_some, Option.getD_none]
  unfold convert_with_params
  rw [hres]
  show convert_resolved w data fn (p - 1) (min d 400) "base64" = _
  unfold convert_resolved
  rw [if_neg hne, if_neg (by omega)]
  have hpti := pdf_page_to_image_ok w data (p - 1) (min d 400) img imgs
    (by rw [hp1]; exact hrender)
  rw [hpti]
  show format_response (b64encode img) img fn (p - 1) (min d 400) "base64" = _
  unfold format_response
  rw [if_neg (by decide), hp1]

/-- Witness for C9: a renderer emitting exactly the PNG signature bytes
yields `image_base64 = "iVBORw0KGgo="`, which decodes back to those 8
bytes. -/
theorem base64_response_roundtrip_witness :
    (pngSignatureBytes.take 8 = pngSignatureBytes)
    ∧ convert_pdf W9
        (jsonRequest (JsonBody.mk (some 1) (some 300) none none (some "AAAA") none)) =
      .pngBase64 true "iVBORw0KGgo=" "base64_pdf_x_page_1.png" 1 300 "PNG" 8
    ∧ b64decode "iVBORw0KGgo=" = .ok pngSignatureBytes := by
  have h := base64_response_roundtrip W9
    (JsonBody.mk (some 1) (some 300) none none (some "AAAA") none) 1 300
    [0, 0, 0] pngSignatureBytes [] "base64_pdf_x"
    rfl rfl rfl rfl (by decide) (by decide) rfl (by decide) (by decide)
  exact ⟨by decide, h.1.trans (by decide), h.2.1⟩

end PdfToImageApi
